import Mathlib

/-!
Verification of `src/models.py` (QANet wiring for SQuAD 2.0).

The file under verification constructs nine sub-layer instances in
`QANet.__init__` and threads two input tensors through them in
`QANet.forward`, returning a pair of output tensors.  The sub-layer
implementations live in the external `layers` module and are treated as
abstract functions here; the wiring itself is embedded faithfully.
-/

/-- A sub-layer instance as created by a constructor call in `__init__`:
an object identity (fresh per constructor call) together with the
constructor arguments it was built from. -/
structure LayerInstance (α : Type) where
  id : Nat
  cfg : α
deriving DecidableEq

/-- Constructor argument of `InputEmbeddingLayer(word_vectors)`. -/
structure InputEmbCfg (W : Type) where
  word_vectors : W
deriving DecidableEq

/-- Constructor arguments of `EmbeddingEncodeLayer(d_model, len, hidden_state, heads=heads)`. -/
structure EmbEncCfg where
  d_model : Nat
  len : Nat
  hidden_state : Nat
  heads : Nat
deriving DecidableEq

/-- Constructor argument of `CQAttentionLayer(hidden_state)`. -/
structure CQACfg where
  hidden_state : Nat
deriving DecidableEq

/-- Constructor arguments of `ConvolutionBlock(in_channels, out_channels, len, kernel)`. -/
structure ConvCfg where
  in_channels : Nat
  out_channels : Nat
  len : Nat
  kernel : Nat
deriving DecidableEq

/-- Constructor arguments of `ModelEncoderLayer(hidden_state, len, heads=heads)`. -/
structure ModelEncCfg where
  hidden_state : Nat
  len : Nat
  heads : Nat
deriving DecidableEq

/-- Constructor arguments of `OutputLayer(hidden_state, log_softmax=log_softmax)`. -/
structure OutputCfg where
  hidden_state : Nat
  log_softmax : Bool
deriving DecidableEq

/-- The model state after `QANet.__init__`: the nine sub-module attributes
assigned on `self`, in source order `c_emb, q_emb, c_enc, q_enc, cqa,
cq_conv, model_enc, start_out, end_out`. -/
structure QANet (W : Type) where
  c_emb : LayerInstance (InputEmbCfg W)
  q_emb : LayerInstance (InputEmbCfg W)
  c_enc : LayerInstance EmbEncCfg
  q_enc : LayerInstance EmbEncCfg
  cqa : LayerInstance CQACfg
  cq_conv : LayerInstance ConvCfg
  model_enc : LayerInstance ModelEncCfg
  start_out : LayerInstance OutputCfg
  end_out : LayerInstance OutputCfg
deriving DecidableEq

/-- `QANet.__init__(word_vectors, d_model, c_len, q_len, hidden_state, heads,
log_softmax)`: each constructor call creates a fresh sub-layer instance
(ids allocated in source order) from the arguments written in the source. -/
def QANet.init (W : Type) (word_vectors : W) (d_model c_len q_len hidden_state heads : Nat)
    (log_softmax : Bool) : QANet W where
  c_emb := ⟨0, ⟨word_vectors⟩⟩
  q_emb := ⟨1, ⟨word_vectors⟩⟩
  c_enc := ⟨2, ⟨d_model, c_len, hidden_state, heads⟩⟩
  q_enc := ⟨3, ⟨d_model, q_len, hidden_state, heads⟩⟩
  cqa := ⟨4, ⟨hidden_state⟩⟩
  cq_conv := ⟨5, ⟨hidden_state * 4, hidden_state, c_len, 5⟩⟩
  model_enc := ⟨6, ⟨hidden_state, c_len, heads⟩⟩
  start_out := ⟨7, ⟨hidden_state, log_softmax⟩⟩
  end_out := ⟨8, ⟨hidden_state, log_softmax⟩⟩

/-- `QANet(word_vec, log_softmax=...)` with the default arguments of
`__init__`: `d_model=300, c_len=200, q_len=100, hidden_state=128, heads=8`. -/
def QANet.initDefault (W : Type) (word_vectors : W) (log_softmax : Bool) : QANet W :=
  QANet.init W word_vectors 300 200 100 128 8 log_softmax

/-- The behaviours of the nine sub-layer instances as functions on tensors
(of abstract type `T`): unary layers are `T → T`, the context-query
attention and the two output layers take two tensors. -/
structure SubLayers (T : Type) where
  c_emb : T → T
  q_emb : T → T
  c_enc : T → T
  q_enc : T → T
  cqa : T → T → T
  cq_conv : T → T
  model_enc : T → T
  start_out : T → T → T
  end_out : T → T → T

/-- `QANet.forward(context, question)`, line for line: each local variable
of the Python body becomes a `let`, each sub-layer call an application of
the corresponding function, and the method returns the pair
`(start_out, end_out)`. -/
def QANet.forward (T : Type) (L : SubLayers T) (context question : T) : T × T :=
  let c_emb_enc := L.c_emb context
  let q_emb_enc := L.q_emb question
  let c_emb_enc := L.c_enc c_emb_enc
  let q_emb_enc := L.q_enc q_emb_enc
  let qc_att := L.cqa c_emb_enc q_emb_enc
  let qc_att := L.cq_conv qc_att
  let mod_enc_1 := L.model_enc qc_att
  let mod_enc_2 := L.model_enc mod_enc_1
  let mod_enc_3 := L.model_enc mod_enc_2
  let start_out := L.start_out mod_enc_1 mod_enc_2
  let end_out := L.end_out mod_enc_1 mod_enc_3
  (start_out, end_out)

/-- C2: For every pair of input tensors `(context, question)`,
`QANet.forward` returns exactly two output tensors (a pair), the first
being the start-position prediction `start_out(mod_enc_1, mod_enc_2)` and
the second the end-position prediction `end_out(mod_enc_1, mod_enc_3)`. -/
theorem forward_returns_start_end_pair (T : Type) (L : SubLayers T) (context question : T) :
    QANet.forward T L context question =
      (L.start_out
          (L.model_enc (L.cq_conv (L.cqa (L.c_enc (L.c_emb context)) (L.q_enc (L.q_emb question)))))
          (L.model_enc (L.model_enc (L.cq_conv (L.cqa (L.c_enc (L.c_emb context)) (L.q_enc (L.q_emb question)))))),
        L.end_out
          (L.model_enc (L.cq_conv (L.cqa (L.c_enc (L.c_emb context)) (L.q_enc (L.q_emb question)))))
          (L.model_enc (L.model_enc (L.model_enc (L.cq_conv (L.cqa (L.c_enc (L.c_emb context)) (L.q_enc (L.q_emb question)))))))) :=
  rfl

/-- An interpretation of layer-instance applications on tensors of type `T`:
`app1 i x` is what the instance with id `i` returns on one tensor `x`,
`app2 i x y` on two tensors. -/
structure Interp (T : Type) where
  app1 : Nat → T → T
  app2 : Nat → T → T → T

/-- The `SubLayers` behaviour of a constructed model under an
interpretation: calling `self.c_emb(x)` is applying the instance
`m.c_emb`. -/
def QANet.layersOf (T W : Type) (I : Interp T) (m : QANet W) : SubLayers T where
  c_emb := I.app1 m.c_emb.id
  q_emb := I.app1 m.q_emb.id
  c_enc := I.app1 m.c_enc.id
  q_enc := I.app1 m.q_enc.id
  cqa := I.app2 m.cqa.id
  cq_conv := I.app1 m.cq_conv.id
  model_enc := I.app1 m.model_enc.id
  start_out := I.app2 m.start_out.id
  end_out := I.app2 m.end_out.id

/-- Symbolic tensor expressions: the only ways to form a value are the two
inputs of `forward` and the application of a sub-layer instance (by id) to
previously formed values.  There is no arithmetic constructor. -/
inductive SymExpr where
  | context : SymExpr
  | question : SymExpr
  | app1 (layer : Nat) (arg : SymExpr) : SymExpr
  | app2 (layer : Nat) (a b : SymExpr) : SymExpr
deriving DecidableEq

/-- Evaluate a symbolic expression under an interpretation of the layer
instances and concrete input tensors. -/
def SymExpr.eval (T : Type) (I : Interp T) (c q : T) : SymExpr → T
  | .context => c
  | .question => q
  | .app1 l a => I.app1 l (SymExpr.eval T I c q a)
  | .app2 l a b => I.app2 l (SymExpr.eval T I c q a) (SymExpr.eval T I c q b)

/-- The symbolic interpretation: layer applications are recorded as
expression nodes. -/
def symInterp : Interp SymExpr where
  app1 := SymExpr.app1
  app2 := SymExpr.app2

/-- `QANet.forward` run on symbolic inputs: the pair of expressions the two
returned tensors are built by. -/
def QANet.symForward (W : Type) (m : QANet W) : SymExpr × SymExpr :=
  QANet.forward SymExpr (QANet.layersOf SymExpr W symInterp m) SymExpr.context SymExpr.question

/-- C5: `QANet.forward` performs no tensor computation of its own: for any
interpretation of the sub-layer instances, its two results are exactly the
evaluations of the symbolic expressions `symForward` — expressions whose
only constructors are the two inputs and sub-layer applications, so every
intermediate value is produced solely by applying a sub-module constructed
in `__init__`; the wiring adds no arithmetic, loss computation, or custom
data structure of its own. -/
theorem forward_is_pure_sublayer_composition (T W : Type) (I : Interp T) (m : QANet W)
    (context question : T) :
    QANet.forward T (QANet.layersOf T W I m) context question =
      (SymExpr.eval T I context question (QANet.symForward W m).1,
       SymExpr.eval T I context question (QANet.symForward W m).2) :=
  rfl

/-- The local variables of the body of `QANet.forward` (plus its two inputs). -/
inductive Var where
  | context : Var
  | question : Var
  | c_emb_enc : Var
  | q_emb_enc : Var
  | qc_att : Var
  | mod_enc_1 : Var
  | mod_enc_2 : Var
  | mod_enc_3 : Var
  | start_out : Var
  | end_out : Var
deriving DecidableEq

/-- One statement of the body: assign to `dst` the result of applying the
sub-layer instance `layer` to the value(s) of the named variable(s). -/
inductive Instr where
  | apply1 (dst : Var) (layer : Nat) (src : Var) : Instr
  | apply2 (dst : Var) (layer : Nat) (a b : Var) : Instr
deriving DecidableEq

/-- The sub-layer instance an instruction applies. -/
def Instr.layer : Instr → Nat
  | .apply1 _ l _ => l
  | .apply2 _ l _ _ => l

/-- The body of `QANet.forward` as a straight-line program: the eleven
sub-layer calls of lines 32-46, one instruction per call, in source
order. -/
def QANet.forwardProgram (W : Type) (m : QANet W) : List Instr :=
  [ .apply1 .c_emb_enc m.c_emb.id .context,
    .apply1 .q_emb_enc m.q_emb.id .question,
    .apply1 .c_emb_enc m.c_enc.id .c_emb_enc,
    .apply1 .q_emb_enc m.q_enc.id .q_emb_enc,
    .apply2 .qc_att m.cqa.id .c_emb_enc .q_emb_enc,
    .apply1 .qc_att m.cq_conv.id .qc_att,
    .apply1 .mod_enc_1 m.model_enc.id .qc_att,
    .apply1 .mod_enc_2 m.model_enc.id .mod_enc_1,
    .apply1 .mod_enc_3 m.model_enc.id .mod_enc_2,
    .apply2 .start_out m.start_out.id .mod_enc_1 .mod_enc_2,
    .apply2 .end_out m.end_out.id .mod_enc_1 .mod_enc_3 ]

/-- A store for the local variables. -/
def Env (T : Type) : Type := Var → T

/-- Update one variable of the store. -/
def Env.set (T : Type) (e : Env T) (v : Var) (x : T) : Env T :=
  fun w => if w = v then x else e w

/-- Execute one instruction: read the source variable(s), apply the layer,
write the destination. -/
def step (T : Type) (I : Interp T) (e : Env T) : Instr → Env T
  | .apply1 d l s => Env.set T e d (I.app1 l (e s))
  | .apply2 d l a b => Env.set T e d (I.app2 l (e a) (e b))

/-- Execute a program sequentially: one instruction after the other, each
acting on the store the previous one produced. -/
def run (T : Type) (I : Interp T) (e : Env T) (p : List Instr) : Env T :=
  p.foldl (step T I) e

/-- The store at entry of `forward`: the two inputs are bound, every local
variable still holds the unspecified default `dflt`. -/
def initEnv (T : Type) (c q dflt : T) : Env T := fun v =>
  match v with
  | .context => c
  | .question => q
  | _ => dflt

/-- C1: `QANet.forward` threads the tensors through the sub-modules in the
fixed order of `forwardProgram` — input embedding of context and question,
embedding encoding of each, context-query attention, the convolution
block, three model-encoding applications, then the two output layers —
and no sub-layer is applied out of this order: the sequence of applied
instances is exactly that list, and running it sequentially yields
the output pair of `forward`. -/
theorem forward_fixed_pipeline_order (T W : Type) (I : Interp T) (m : QANet W)
    (c q dflt : T) :
    List.map Instr.layer (QANet.forwardProgram W m) =
      [m.c_emb.id, m.q_emb.id, m.c_enc.id, m.q_enc.id, m.cqa.id, m.cq_conv.id,
       m.model_enc.id, m.model_enc.id, m.model_enc.id, m.start_out.id, m.end_out.id] ∧
    (run T I (initEnv T c q dflt) (QANet.forwardProgram W m) Var.start_out,
     run T I (initEnv T c q dflt) (QANet.forwardProgram W m) Var.end_out) =
      QANet.forward T (QANet.layersOf T W I m) c q :=
  ⟨rfl, rfl⟩

/-- C7: The program involves no concurrency: `QANet.forward` is the
strictly sequential execution of its straight-line body — its output pair
is the result of folding `step` over the instruction list one instruction
at a time, and executing a program extended by one instruction is
executing the prefix and then that single instruction on the store it
left.  There is no interleaving: each instruction acts on the one store
the previous instruction produced. -/
theorem forward_strictly_sequential (T W : Type) (I : Interp T) (m : QANet W)
    (c q dflt : T) :
    (QANet.forward T (QANet.layersOf T W I m) c q =
      ((List.foldl (step T I) (initEnv T c q dflt) (QANet.forwardProgram W m)) Var.start_out,
       (List.foldl (step T I) (initEnv T c q dflt) (QANet.forwardProgram W m)) Var.end_out)) ∧
    ∀ (e : Env T) (p : List Instr) (i : Instr),
      run T I e (p ++ [i]) = step T I (run T I e p) i := by
  refine ⟨rfl, fun e p i => ?_⟩
  simp [run, List.foldl_append]

/-- C8: In `forward`, the three model-encoding steps all apply the same
`ModelEncoderLayer` instance (the single `self.model_enc` constructed in
`__init__`): symbolically, `mod_enc_2` is that instance applied to
`mod_enc_1` and `mod_enc_3` is it applied to `mod_enc_2`; both output
layers receive `mod_enc_1` as first argument, `start_out` paired with
`mod_enc_2` and `end_out` with `mod_enc_3`; and the two output layers of a
constructed model are distinct `OutputLayer` instances. -/
theorem model_enc_shared_and_output_instances_distinct (W : Type) (m : QANet W)
    (word_vectors : W) (d_model c_len q_len hidden_state heads : Nat) (log_softmax : Bool) :
    (QANet.symForward W m =
      (let att := SymExpr.app1 m.cq_conv.id
         (SymExpr.app2 m.cqa.id
           (SymExpr.app1 m.c_enc.id (SymExpr.app1 m.c_emb.id SymExpr.context))
           (SymExpr.app1 m.q_enc.id (SymExpr.app1 m.q_emb.id SymExpr.question)))
       let mod_enc_1 := SymExpr.app1 m.model_enc.id att
       let mod_enc_2 := SymExpr.app1 m.model_enc.id mod_enc_1
       let mod_enc_3 := SymExpr.app1 m.model_enc.id mod_enc_2
       (SymExpr.app2 m.start_out.id mod_enc_1 mod_enc_2,
        SymExpr.app2 m.end_out.id mod_enc_1 mod_enc_3))) ∧
    (QANet.init W word_vectors d_model c_len q_len hidden_state heads log_softmax).start_out.id ≠
      (QANet.init W word_vectors d_model c_len q_len hidden_state heads log_softmax).end_out.id :=
  ⟨rfl, by show (7 : Nat) ≠ 8; decide⟩

/-- `QANet.forward` as a method call with the receiver and the ambient
random-number state threaded explicitly: the body of lines 32-48 contains
no assignment to `self` and no call into a random source, so both come
back unchanged next to the returned pair. -/
def QANet.forwardM (T W R : Type) (I : Interp T) (self : QANet W) (rng : R)
    (context question : T) : (QANet W × R) × (T × T) :=
  let c_emb_enc := I.app1 self.c_emb.id context
  let q_emb_enc := I.app1 self.q_emb.id question
  let c_emb_enc := I.app1 self.c_enc.id c_emb_enc
  let q_emb_enc := I.app1 self.q_enc.id q_emb_enc
  let qc_att := I.app2 self.cqa.id c_emb_enc q_emb_enc
  let qc_att := I.app1 self.cq_conv.id qc_att
  let mod_enc_1 := I.app1 self.model_enc.id qc_att
  let mod_enc_2 := I.app1 self.model_enc.id mod_enc_1
  let mod_enc_3 := I.app1 self.model_enc.id mod_enc_2
  let start_out := I.app2 self.start_out.id mod_enc_1 mod_enc_2
  let end_out := I.app2 self.end_out.id mod_enc_1 mod_enc_3
  ((self, rng), (start_out, end_out))

/-- C9: After construction with the default arguments, the model state
satisfies the structural invariant: the context and question embedding
layers are distinct `InputEmbeddingLayer` instances built from the same
`word_vectors` table; the context and question encoders are distinct
`EmbeddingEncodeLayer` instances with lengths `c_len = 200` and
`q_len = 100` and the same `d_model = 300`, `hidden_state = 128`,
`heads = 8`; and `forward` never modifies this state. -/
theorem init_structural_invariant (W T R : Type) (word_vectors : W) (log_softmax : Bool) :
    (QANet.initDefault W word_vectors log_softmax).c_emb.id ≠
      (QANet.initDefault W word_vectors log_softmax).q_emb.id ∧
    (QANet.initDefault W word_vectors log_softmax).c_emb.cfg = ⟨word_vectors⟩ ∧
    (QANet.initDefault W word_vectors log_softmax).q_emb.cfg = ⟨word_vectors⟩ ∧
    (QANet.initDefault W word_vectors log_softmax).c_enc.id ≠
      (QANet.initDefault W word_vectors log_softmax).q_enc.id ∧
    (QANet.initDefault W word_vectors log_softmax).c_enc.cfg = ⟨300, 200, 128, 8⟩ ∧
    (QANet.initDefault W word_vectors log_softmax).q_enc.cfg = ⟨300, 100, 128, 8⟩ ∧
    ∀ (I : Interp T) (rng : R) (c q : T),
      (QANet.forwardM T W R I (QANet.initDefault W word_vectors log_softmax) rng c q).1.1 =
        QANet.initDefault W word_vectors log_softmax :=
  ⟨by show (0 : Nat) ≠ 1; decide, rfl, rfl, by show (2 : Nat) ≠ 3; decide, rfl, rfl,
    fun _ _ _ _ => rfl⟩

/-- C10: `QANet.forward` is read-only with respect to the model and draws
no randomness: the receiver and the random state come back unchanged, the
returned pair is exactly the pure `forward` of the sub-layer functions,
and a second call on the returned state with equal inputs returns an equal
output pair. -/
theorem forward_readonly_deterministic (T W R : Type) (I : Interp T) (m : QANet W)
    (rng : R) (c q : T) :
    (QANet.forwardM T W R I m rng c q).1 = (m, rng) ∧
    (QANet.forwardM T W R I m rng c q).2 =
      QANet.forward T (QANet.layersOf T W I m) c q ∧
    (QANet.forwardM T W R I (QANet.forwardM T W R I m rng c q).1.1
        (QANet.forwardM T W R I m rng c q).1.2 c q).2 =
      (QANet.forwardM T W R I m rng c q).2 :=
  ⟨rfl, rfl, rfl⟩

/-- The sub-layer behaviours when calls may fail: each call either returns
a tensor or raises an error of type `E`. -/
structure SubLayersE (E T : Type) where
  c_emb : T → Except E T
  q_emb : T → Except E T
  c_enc : T → Except E T
  q_enc : T → Except E T
  cqa : T → T → Except E T
  cq_conv : T → Except E T
  model_enc : T → Except E T
  start_out : T → T → Except E T
  end_out : T → T → Except E T

/-- The sub-layer constructors called by `__init__` when construction may
fail. -/
structure CtorsE (E W : Type) where
  inputEmbedding : InputEmbCfg W → Except E (LayerInstance (InputEmbCfg W))
  embeddingEncode : EmbEncCfg → Except E (LayerInstance EmbEncCfg)
  cqattn : CQACfg → Except E (LayerInstance CQACfg)
  convolutionBlock : ConvCfg → Except E (LayerInstance ConvCfg)
  modelEncoder : ModelEncCfg → Except E (LayerInstance ModelEncCfg)
  output : OutputCfg → Except E (LayerInstance OutputCfg)

/-- `QANet.__init__` under fallible constructor calls: the nine calls in
source order with the arguments written in the source, each sequenced with
`Except.bind` — exceptions are not caught, there is no retry, and the body
raises nothing itself. -/
def QANet.initE (E W : Type) (C : CtorsE E W) (word_vectors : W)
    (d_model c_len q_len hidden_state heads : Nat) (log_softmax : Bool) :
    Except E (QANet W) :=
  Except.bind (C.inputEmbedding ⟨word_vectors⟩) fun c_emb =>
  Except.bind (C.inputEmbedding ⟨word_vectors⟩) fun q_emb =>
  Except.bind (C.embeddingEncode ⟨d_model, c_len, hidden_state, heads⟩) fun c_enc =>
  Except.bind (C.embeddingEncode ⟨d_model, q_len, hidden_state, heads⟩) fun q_enc =>
  Except.bind (C.cqattn ⟨hidden_state⟩) fun cqa =>
  Except.bind (C.convolutionBlock ⟨hidden_state * 4, hidden_state, c_len, 5⟩) fun cq_conv =>
  Except.bind (C.modelEncoder ⟨hidden_state, c_len, heads⟩) fun model_enc =>
  Except.bind (C.output ⟨hidden_state, log_softmax⟩) fun start_out =>
  Except.bind (C.output ⟨hidden_state, log_softmax⟩) fun end_out =>
  Except.ok ⟨c_emb, q_emb, c_enc, q_enc, cqa, cq_conv, model_enc, start_out, end_out⟩

/-- `QANet.forward` under fallible sub-layer calls: the eleven calls of the
body in source order, each sequenced with `Except.bind` — exceptions are
not caught, there is no retry, and the body raises nothing itself. -/
def QANet.forwardE (E T : Type) (L : SubLayersE E T) (context question : T) :
    Except E (T × T) :=
  Except.bind (L.c_emb context) fun c_emb_enc =>
  Except.bind (L.q_emb question) fun q_emb_enc =>
  Except.bind (L.c_enc c_emb_enc) fun c_emb_enc2 =>
  Except.bind (L.q_enc q_emb_enc) fun q_emb_enc2 =>
  Except.bind (L.cqa c_emb_enc2 q_emb_enc2) fun qc_att =>
  Except.bind (L.cq_conv qc_att) fun qc_att2 =>
  Except.bind (L.model_enc qc_att2) fun mod_enc_1 =>
  Except.bind (L.model_enc mod_enc_1) fun mod_enc_2 =>
  Except.bind (L.model_enc mod_enc_2) fun mod_enc_3 =>
  Except.bind (L.start_out mod_enc_1 mod_enc_2) fun start_out =>
  Except.bind (L.end_out mod_enc_1 mod_enc_3) fun end_out =>
  Except.ok (start_out, end_out)

/-- A failing `Except.bind` fails because its first component failed with
the same error, or because the continuation failed on the first
result of the first component. -/
theorem exceptBind_error_elim (E α β : Type) (x : Except E α) (f : α → Except E β) (e : E)
    (h : Except.bind x f = Except.error e) :
    x = Except.error e ∨ ∃ a, x = Except.ok a ∧ f a = Except.error e := by
  cases x with
  | error e1 =>
    simp only [Except.bind] at h
    injection h with h2
    subst h2
    exact Or.inl rfl
  | ok a =>
    simp only [Except.bind] at h
    exact Or.inr ⟨a, rfl, h⟩

/-- C6: Neither `QANet.__init__` nor `QANet.forward` contains any failure
handling: no error is caught, no retry is attempted, and no error value is
produced by this code itself — whenever construction or the forward pass
fails with error `e`, that very error was raised by one of the constructor
or sub-layer calls of the body and propagated unchanged to the caller. -/
theorem no_failure_handling (E W T : Type) (C : CtorsE E W) (L : SubLayersE E T)
    (word_vectors : W) (d_model c_len q_len hidden_state heads : Nat) (log_softmax : Bool)
    (context question : T) (e : E) :
    (QANet.initE E W C word_vectors d_model c_len q_len hidden_state heads log_softmax =
        Except.error e →
      C.inputEmbedding ⟨word_vectors⟩ = Except.error e ∨
      C.embeddingEncode ⟨d_model, c_len, hidden_state, heads⟩ = Except.error e ∨
      C.embeddingEncode ⟨d_model, q_len, hidden_state, heads⟩ = Except.error e ∨
      C.cqattn ⟨hidden_state⟩ = Except.error e ∨
      C.convolutionBlock ⟨hidden_state * 4, hidden_state, c_len, 5⟩ = Except.error e ∨
      C.modelEncoder ⟨hidden_state, c_len, heads⟩ = Except.error e ∨
      C.output ⟨hidden_state, log_softmax⟩ = Except.error e) ∧
    (QANet.forwardE E T L context question = Except.error e →
      L.c_emb context = Except.error e ∨
      L.q_emb question = Except.error e ∨
      (∃ x, L.c_enc x = Except.error e) ∨
      (∃ x, L.q_enc x = Except.error e) ∨
      (∃ x y, L.cqa x y = Except.error e) ∨
      (∃ x, L.cq_conv x = Except.error e) ∨
      (∃ x, L.model_enc x = Except.error e) ∨
      (∃ x y, L.start_out x y = Except.error e) ∨
      (∃ x y, L.end_out x y = Except.error e)) := by
  constructor
  · intro h
    rw [QANet.initE] at h
    rcases exceptBind_error_elim _ _ _ _ _ _ h with h1 | ⟨c_emb, _, h⟩
    · exact Or.inl h1
    rcases exceptBind_error_elim _ _ _ _ _ _ h with h1 | ⟨q_emb, _, h⟩
    · exact Or.inl h1
    rcases exceptBind_error_elim _ _ _ _ _ _ h with h1 | ⟨c_enc, _, h⟩
    · exact Or.inr (Or.inl h1)
    rcases exceptBind_error_elim _ _ _ _ _ _ h with h1 | ⟨q_enc, _, h⟩
    · exact Or.inr (Or.inr (Or.inl h1))
    rcases exceptBind_error_elim _ _ _ _ _ _ h with h1 | ⟨cqa, _, h⟩
    · exact Or.inr (Or.inr (Or.inr (Or.inl h1)))
    rcases exceptBind_error_elim _ _ _ _ _ _ h with h1 | ⟨cq_conv, _, h⟩
    · exact Or.inr (Or.inr (Or.inr (Or.inr (Or.inl h1))))
    rcases exceptBind_error_elim _ _ _ _ _ _ h with h1 | ⟨model_enc, _, h⟩
    · exact Or.inr (Or.inr (Or.inr (Or.inr (Or.inr (Or.inl h1)))))
    rcases exceptBind_error_elim _ _ _ _ _ _ h with h1 | ⟨start_out, _, h⟩
    · exact Or.inr (Or.inr (Or.inr (Or.inr (Or.inr (Or.inr h1)))))
    rcases exceptBind_error_elim _ _ _ _ _ _ h with h1 | ⟨end_out, _, h⟩
    · exact Or.inr (Or.inr (Or.inr (Or.inr (Or.inr (Or.inr h1)))))
    exact Except.noConfusion h
  · intro h
    rw [QANet.forwardE] at h
    rcases exceptBind_error_elim _ _ _ _ _ _ h with h1 | ⟨c_emb_enc, _, h⟩
    · exact Or.inl h1
    rcases exceptBind_error_elim _ _ _ _ _ _ h with h1 | ⟨q_emb_enc, _, h⟩
    · exact Or.inr (Or.inl h1)
    rcases exceptBind_error_elim _ _ _ _ _ _ h with h1 | ⟨c_emb_enc2, _, h⟩
    · exact Or.inr (Or.inr (Or.inl ⟨c_emb_enc, h1⟩))
    rcases exceptBind_error_elim _ _ _ _ _ _ h with h1 | ⟨q_emb_enc2, _, h⟩
    · exact Or.inr (Or.inr (Or.inr (Or.inl ⟨q_emb_enc, h1⟩)))
    rcases exceptBind_error_elim _ _ _ _ _ _ h with h1 | ⟨qc_att, _, h⟩
    · exact Or.inr (Or.inr (Or.inr (Or.inr (Or.inl ⟨c_emb_enc2, q_emb_enc2, h1⟩))))
    rcases exceptBind_error_elim _ _ _ _ _ _ h with h1 | ⟨qc_att2, _, h⟩
    · exact Or.inr (Or.inr (Or.inr (Or.inr (Or.inr (Or.inl ⟨qc_att, h1⟩)))))
    rcases exceptBind_error_elim _ _ _ _ _ _ h with h1 | ⟨mod_enc_1, _, h⟩
    · exact Or.inr (Or.inr (Or.inr (Or.inr (Or.inr (Or.inr (Or.inl ⟨qc_att2, h1⟩))))))
    rcases exceptBind_error_elim _ _ _ _ _ _ h with h1 | ⟨mod_enc_2, _, h⟩
    · exact Or.inr (Or.inr (Or.inr (Or.inr (Or.inr (Or.inr (Or.inl ⟨mod_enc_1, h1⟩))))))
    rcases exceptBind_error_elim _ _ _ _ _ _ h with h1 | ⟨mod_enc_3, _, h⟩
    · exact Or.inr (Or.inr (Or.inr (Or.inr (Or.inr (Or.inr (Or.inl ⟨mod_enc_2, h1⟩))))))
    rcases exceptBind_error_elim _ _ _ _ _ _ h with h1 | ⟨start_out, _, h⟩
    · exact Or.inr (Or.inr (Or.inr (Or.inr (Or.inr (Or.inr (Or.inr (Or.inl ⟨mod_enc_1, mod_enc_2, h1⟩)))))))
    rcases exceptBind_error_elim _ _ _ _ _ _ h with h1 | ⟨end_out, _, h⟩
    · exact Or.inr (Or.inr (Or.inr (Or.inr (Or.inr (Or.inr (Or.inr (Or.inr ⟨mod_enc_1, mod_enc_3, h1⟩)))))))
    exact Except.noConfusion h

/-- A tensor shape: the list of dimension sizes. -/
abbrev Shape : Type := List Nat

/-- Modelled from the spec: the implementation of `InputEmbeddingLayer`
lives in the external `layers` module and is not part of the excerpt; per
the pipeline description of the spec and the shape comments of `forward`
(lines 32-33), it embeds a batch of word-index sequences `(batch_size,
len)` into word vectors `(batch_size, d_model, len)`, where `dim` is the
embedding width of the word-vector table. -/
def inputEmbeddingShape (dim : Nat) : Shape → Except Unit Shape
  | [batch_size, len] => Except.ok [batch_size, dim, len]
  | _ => Except.error ()

/-- Modelled from the spec: the implementation of `EmbeddingEncodeLayer`
is not part of the excerpt; per the shape comments of `forward`
(lines 35-36), it encodes `(batch_size, d_model, len)` into
`(batch_size, hidden_state, len)` for the sequence length it was
constructed with. -/
def embeddingEncodeShape (cfg : EmbEncCfg) : Shape → Except Unit Shape
  | [batch_size, d, len] =>
    if d = cfg.d_model ∧ len = cfg.len then Except.ok [batch_size, cfg.hidden_state, len]
    else Except.error ()
  | _ => Except.error ()

/-- Modelled from the spec: the implementation of `CQAttentionLayer` is
not part of the excerpt; per the shape comment of `forward` (line 38), it
takes the encoded context `(batch_size, hidden_state, c_len)` and question
`(batch_size, hidden_state, q_len)` and returns
`(batch_size, hidden_state * 4, c_len)` — over the context length. -/
def cqAttnShape (cfg : CQACfg) : Shape → Shape → Except Unit Shape
  | [batch_size, h, c_len], [batch_size2, h2, _] =>
    if batch_size2 = batch_size ∧ h = cfg.hidden_state ∧ h2 = cfg.hidden_state then
      Except.ok [batch_size, cfg.hidden_state * 4, c_len]
    else Except.error ()
  | _, _ => Except.error ()

/-- Modelled from the spec: the implementation of `ConvolutionBlock` is
not part of the excerpt; per the shape comment of `forward` (line 39), it
maps `(batch_size, in_channels, len)` to `(batch_size, out_channels,
len)` for the length it was constructed with. -/
def convolutionBlockShape (cfg : ConvCfg) : Shape → Except Unit Shape
  | [batch_size, ch, len] =>
    if ch = cfg.in_channels ∧ len = cfg.len then Except.ok [batch_size, cfg.out_channels, len]
    else Except.error ()
  | _ => Except.error ()

/-- Modelled from the spec: the implementation of `ModelEncoderLayer` is
not part of the excerpt; per the shape comments of `forward`
(lines 41-43), it preserves the shape `(batch_size, hidden_state, len)`
for the length it was constructed with. -/
def modelEncoderShape (cfg : ModelEncCfg) : Shape → Except Unit Shape
  | [batch_size, h, len] =>
    if h = cfg.hidden_state ∧ len = cfg.len then Except.ok [batch_size, h, len]
    else Except.error ()
  | _ => Except.error ()

/-- Modelled from the spec: the implementation of `OutputLayer` is not
part of the excerpt; per the spec ("fc + softmax to get final outputs")
and the shape comments of `forward` (lines 45-46), it takes two model
encodings `(batch_size, hidden_state, len)` and returns a distribution
over the `len` positions: `(batch_size, len)`. -/
def outputShape (cfg : OutputCfg) : Shape → Shape → Except Unit Shape
  | [batch_size, h, len], [batch_size2, h2, len2] =>
    if batch_size2 = batch_size ∧ h = cfg.hidden_state ∧ h2 = cfg.hidden_state ∧ len2 = len then
      Except.ok [batch_size, len]
    else Except.error ()
  | _, _ => Except.error ()

/-- The shape behaviour of the sub-layers of a constructed model, each driven
by the constructor arguments recorded in the model state; `dim` is the
embedding width of the word-vector table. -/
def QANet.shapeLayers (W : Type) (dim : Nat) (m : QANet W) : SubLayersE Unit Shape where
  c_emb := inputEmbeddingShape dim
  q_emb := inputEmbeddingShape dim
  c_enc := embeddingEncodeShape m.c_enc.cfg
  q_enc := embeddingEncodeShape m.q_enc.cfg
  cqa := cqAttnShape m.cqa.cfg
  cq_conv := convolutionBlockShape m.cq_conv.cfg
  model_enc := modelEncoderShape m.model_enc.cfg
  start_out := outputShape m.start_out.cfg
  end_out := outputShape m.end_out.cfg

/-- C3: For every batch of inputs, both tensors returned by
`QANet.forward` range over token positions of the context passage: on a
context of shape `(batch_size, c_len)` and a question of shape
`(batch_size, q_len)`, a model constructed with lengths `c_len` and
`q_len` returns two tensors of shape `(batch_size, c_len)` — the context
length the model was constructed with, not the question length. -/
theorem forward_output_shapes (W : Type) (word_vectors : W)
    (batch_size d_model c_len q_len hidden_state heads : Nat) (log_softmax : Bool) :
    QANet.forwardE Unit Shape
        (QANet.shapeLayers W d_model
          (QANet.init W word_vectors d_model c_len q_len hidden_state heads log_softmax))
        [batch_size, c_len] [batch_size, q_len] =
      Except.ok ([batch_size, c_len], [batch_size, c_len]) := by
  simp [QANet.forwardE, QANet.shapeLayers, QANet.init, inputEmbeddingShape,
    embeddingEncodeShape, cqAttnShape, convolutionBlockShape, modelEncoderShape,
    outputShape, Except.bind]

/-- A two-dimensional integer tensor: its shape and its entries. -/
structure Tensor2 where
  rows : Nat
  cols : Nat
  entry : Nat → Nat → Int

/-- `.to(torch.int64)` on a floating value: conversion to int64 truncates
toward zero. -/
def toInt64 (x : Rat) : Int :=
  if 0 ≤ x then Int.floor x else -Int.floor (-x)

/-- Line 52, `ctx = torch.rand((2, 200)).to(torch.int64)`: the per-run
draw of `torch.rand` is a sample function giving each entry a value in
`[0, 1)`; the tensor fed to the model is that draw converted elementwise
to int64. -/
def mainCtx (sample : Nat → Nat → Rat) : Tensor2 :=
  ⟨2, 200, fun i j => toInt64 (sample i j)⟩

/-- Line 53, `q = torch.rand((2, 100)).to(torch.int64)`: as `mainCtx`,
with shape `(2, 100)`. -/
def mainQ (sample : Nat → Nat → Rat) : Tensor2 :=
  ⟨2, 100, fun i j => toInt64 (sample i j)⟩

/-- Truncating any value of `[0, 1)` — the support of `torch.rand` — to
int64 gives `0`. -/
theorem toInt64_of_unit_interval (x : Rat) (h0 : 0 ≤ x) (h1 : x < 1) : toInt64 x = 0 := by
  rw [toInt64, if_pos h0]
  exact Int.floor_eq_zero_iff.mpr ⟨h0, h1⟩

/-- C4, refuted: the context and question tensors the `__main__` smoke
test feeds to QANet do not vary across runs: whatever values `torch.rand`
draws (always in `[0, 1)`), the conversion `.to(torch.int64)` truncates
every entry to `0`, so any two runs produce the same pair of constant
all-zero tensors. -/
theorem smoke_test_inputs_constant_zero (s1 s2 : Nat → Nat → Rat)
    (h1 : ∀ i j, 0 ≤ s1 i j ∧ s1 i j < 1) (h2 : ∀ i j, 0 ≤ s2 i j ∧ s2 i j < 1) :
    mainCtx s1 = mainCtx s2 ∧ mainQ s1 = mainQ s2 ∧
    (∀ i j, (mainCtx s1).entry i j = 0) ∧ (∀ i j, (mainQ s1).entry i j = 0) := by
  have z1 : ∀ i j, toInt64 (s1 i j) = 0 := fun i j =>
    toInt64_of_unit_interval (s1 i j) (h1 i j).1 (h1 i j).2
  have z2 : ∀ i j, toInt64 (s2 i j) = 0 := fun i j =>
    toInt64_of_unit_interval (s2 i j) (h2 i j).1 (h2 i j).2
  refine ⟨?_, ?_, fun i j => z1 i j, fun i j => z1 i j⟩
  · rw [mainCtx, mainCtx]
    exact congrArg _ (funext fun i => funext fun j => (z1 i j).trans (z2 i j).symm)
  · rw [mainQ, mainQ]
    exact congrArg _ (funext fun i => funext fun j => (z1 i j).trans (z2 i j).symm)

/-- Two concrete draws `torch.rand` could make: every entry `1/2`, and
every entry `1/3`. -/
def sampleHalf : Nat → Nat → Rat := fun _ _ => 1 / 2

/-- See `sampleHalf`. -/
def sampleThird : Nat → Nat → Rat := fun _ _ => 1 / 3

/-- Witness: two distinct concrete draws yield the very same input
tensors, and the entries are zero. -/
theorem smoke_test_inputs_constant_zero_witness :
    mainCtx sampleHalf = mainCtx sampleThird ∧ mainQ sampleHalf = mainQ sampleThird ∧
    (∀ i j, (mainCtx sampleHalf).entry i j = 0) ∧
    (∀ i j, (mainQ sampleHalf).entry i j = 0) :=
  smoke_test_inputs_constant_zero sampleHalf sampleThird
    (fun _ _ => ⟨by norm_num [sampleHalf], by norm_num [sampleHalf]⟩)
    (fun _ _ => ⟨by norm_num [sampleThird], by norm_num [sampleThird]⟩)

/-- A constructor environment whose first constructor fails with error 3
and the rest succeed. -/
def failCtors : CtorsE Nat Nat where
  inputEmbedding := fun _ => Except.error 3
  embeddingEncode := fun c => Except.ok ⟨0, c⟩
  cqattn := fun c => Except.ok ⟨0, c⟩
  convolutionBlock := fun c => Except.ok ⟨0, c⟩
  modelEncoder := fun c => Except.ok ⟨0, c⟩
  output := fun c => Except.ok ⟨0, c⟩

/-- A sub-layer environment whose context embedding fails with error 7 and
the rest succeed. -/
def failLayers : SubLayersE Nat Nat where
  c_emb := fun _ => Except.error 7
  q_emb := fun x => Except.ok x
  c_enc := fun x => Except.ok x
  q_enc := fun x => Except.ok x
  cqa := fun x _ => Except.ok x
  cq_conv := fun x => Except.ok x
  model_enc := fun x => Except.ok x
  start_out := fun x _ => Except.ok x
  end_out := fun x _ => Except.ok x

/-- Witness: a failing constructor call and a failing sub-layer call are
each traced back to the call that raised them, with the error value
unchanged. -/
theorem no_failure_handling_witness :
    (failCtors.inputEmbedding ⟨0⟩ = Except.error 3 ∨
     failCtors.embeddingEncode ⟨300, 200, 128, 8⟩ = Except.error 3 ∨
     failCtors.embeddingEncode ⟨300, 100, 128, 8⟩ = Except.error 3 ∨
     failCtors.cqattn ⟨128⟩ = Except.error 3 ∨
     failCtors.convolutionBlock ⟨128 * 4, 128, 200, 5⟩ = Except.error 3 ∨
     failCtors.modelEncoder ⟨128, 200, 8⟩ = Except.error 3 ∨
     failCtors.output ⟨128, false⟩ = Except.error 3) ∧
    (failLayers.c_emb 0 = Except.error 7 ∨
     failLayers.q_emb 0 = Except.error 7 ∨
     (∃ x, failLayers.c_enc x = Except.error 7) ∨
     (∃ x, failLayers.q_enc x = Except.error 7) ∨
     (∃ x y, failLayers.cqa x y = Except.error 7) ∨
     (∃ x, failLayers.cq_conv x = Except.error 7) ∨
     (∃ x, failLayers.model_enc x = Except.error 7) ∨
     (∃ x y, failLayers.start_out x y = Except.error 7) ∨
     (∃ x y, failLayers.end_out x y = Except.error 7)) :=
  ⟨(no_failure_handling Nat Nat Nat failCtors failLayers 0 300 200 100 128 8 false 0 0 3).1 rfl,
   (no_failure_handling Nat Nat Nat failCtors failLayers 0 300 200 100 128 8 false 0 0 7).2 rfl⟩
